import Mathlib

/-!
Verification of the AssppWeb account-management UI logic.

Shallow embedding of the two reviewed components:
* `AccountDetail` (re-authentication / delete / export handlers), and
* `AccountList.handleImport` (clipboard JSON import).

External collaborators (the account store, the authenticator, the
clipboard, `JSON.parse` / `JSON.stringify`) are modelled as explicit
inputs: the outcome of each awaited collaborator call is a parameter of
the handler function, and the calls a handler issues are returned as an
explicit operation list.
-/

namespace AssppWeb

/-- A JavaScript runtime value as relevant to the import path: the image
of `JSON.parse` plus `undefined` (which property access on a
non-existent key produces; `JSON.parse` itself never returns it).
Numbers are modelled integrally; no claim exercises numeric fields.
Objects are association lists; `JSON.parse` keeps the last duplicate
key, so a parsed object is modelled with distinct keys and lookup order
is immaterial. -/
inductive JsValue where
  | undefined : JsValue
  | null : JsValue
  | bool (b : Bool) : JsValue
  | num (n : Int) : JsValue
  | str (s : String) : JsValue
  | arr (elems : List JsValue) : JsValue
  | obj (fields : List (String × JsValue)) : JsValue

/-- A thrown JavaScript value, as discriminated by the handlers'
`catch` blocks (`instanceof SyntaxError`, `instanceof
AuthenticationError` with its `codeRequired` flag, `instanceof Error`,
or a non-`Error` value). `parseError` models a `SyntaxError` (as thrown
by `JSON.parse`); `typeErrorRead k` models the `TypeError` thrown by a
property read `base.k` when `base` is null or undefined. -/
inductive Thrown where
  | authError (codeRequired : Bool) (message : String) : Thrown
  | parseError (message : String) : Thrown
  | typeErrorRead (field : String) : Thrown
  | jsError (message : String) : Thrown
  | nonError : Thrown

/-- The platform message of the `TypeError` raised by reading property
`k` of `null` (engine-dependent text; V8 writes
"Cannot read properties of null (reading ...)"). -/
def nullReadMessage (k : String) : String :=
  "Cannot read properties of null (reading " ++ k ++ ")"

/-- `err.message` when the thrown value is an `Error` instance, `none`
for a thrown non-`Error` value. -/
def thrownMessage : Thrown → Option String
  | .authError _ m => some m
  | .parseError m => some m
  | .typeErrorRead k => some (nullReadMessage k)
  | .jsError m => some m
  | .nonError => none

/-- `err instanceof AuthenticationError && err.codeRequired`. -/
def codeRequiredFlag : Thrown → Bool
  | .authError cr _ => cr
  | _ => false

/-- The `Account` record of `types.ts` as used by both components.
`cookies` is an ordered sequence of session-cookie records of
unspecified shape, modelled as JSON values; `pod` is optional. -/
structure Account where
  email : String
  password : String
  appleId : String
  store : String
  firstName : String
  lastName : String
  passwordToken : String
  directoryServicesIdentifier : String
  cookies : List JsValue
  deviceIdentifier : String
  pod : Option String

/-- The `useState` cells of the `AccountDetail` component. -/
structure DetailState where
  showDelete : Bool
  reauthing : Bool
  exporting : Bool
  reauthCode : String
  needsCode : Bool
  error : Option String
  success : Option String

/-- A call issued against the external account store by the detail
view. -/
inductive StoreOp where
  | update (a : Account) : StoreOp
  | remove (email : String) : StoreOp

/-- A call issued against the system clipboard. -/
inductive ClipOp where
  | writeText (text : String) : ClipOp

/-- `accounts.find((a) => a.email === decodedEmail)`. -/
def findAccount (accounts : List Account) (decodedEmail : String) : Option Account :=
  accounts.find? (fun a => a.email == decodedEmail)

/-- The optional `code` argument passed to `authenticate`:
`needsCode && reauthCode ? reauthCode : undefined`. -/
def reauthCodeArg (st : DetailState) : Option String :=
  if st.needsCode && st.reauthCode != "" then some st.reauthCode else none

/-- The `catch` block of `handleReauth`: a code-required
`AuthenticationError` shows the code prompt and surfaces the message;
any other thrown value surfaces its message (or the fixed fallback for
a non-`Error`) without touching the prompt state. -/
def reauthCatch (st : DetailState) (e : Thrown) : DetailState :=
  match e with
  | .authError true m => { st with needsCode := true, error := some m }
  | e => { st with error := some ((thrownMessage e).getD "Re-authentication failed") }

/-- `handleReauth`: guard on a missing account, clear banners, set the
in-flight flag, await `authenticate` (its resolution or thrown value is
the `auth` input), on success await `updateAccount(updated)` (whose
rejection, if any, is the `updErr` input) and then clear the pending
code state and surface success; failures go through the `catch` block;
`finally` clears the in-flight flag. Returns the final state and the
store calls issued. -/
def handleReauth (account : Option Account) (st : DetailState)
    (auth : Except Thrown Account) (updErr : Option Thrown) :
    DetailState × List StoreOp :=
  match account with
  | none => (st, [])
  | some _ =>
    let st1 : DetailState := { st with error := none, success := none, reauthing := true }
    match auth with
    | .ok updated =>
      match updErr with
      | none =>
        ({ st1 with needsCode := false, reauthCode := "",
                    success := some "Account re-authenticated successfully.",
                    reauthing := false },
         [StoreOp.update updated])
      | some e => ({ reauthCatch st1 e with reauthing := false }, [StoreOp.update updated])
    | .error e => ({ reauthCatch st1 e with reauthing := false }, [])

/-- `handleDelete`: guard on a missing account, await
`removeAccount(account.email)` (rejection is the `remErr` input; the
handler has no `catch`, so a rejection skips the navigation), then
`navigate("/accounts")`. Returns the store calls issued and whether
navigation away happened. -/
def handleDelete (account : Option Account) (remErr : Option Thrown) :
    List StoreOp × Bool :=
  match account with
  | none => ([], false)
  | some a =>
    match remErr with
    | none => ([StoreOp.remove a.email], true)
    | some _ => ([StoreOp.remove a.email], false)

/-- `handleExport`: guard on a missing account, set the in-flight flag,
clear banners, compute `JSON.stringify(account, null, 2)` (the
platform serialization is the `exportData` input) and await the
clipboard write (rejection is the `clipErr` input), surfacing success
or the failure message. Returns the final state and the clipboard
calls issued. -/
def handleExport (account : Option Account) (st : DetailState)
    (exportData : String) (clipErr : Option Thrown) :
    DetailState × List ClipOp :=
  match account with
  | none => (st, [])
  | some _ =>
    let st1 : DetailState := { st with exporting := true, error := none, success := none }
    match clipErr with
    | none =>
      ({ st1 with success := some "Account data copied to clipboard.", exporting := false },
       [ClipOp.writeText exportData])
    | some e =>
      ({ st1 with error := some ((thrownMessage e).getD "Failed to export account"),
                  exporting := false },
       [ClipOp.writeText exportData])

/-! ### Delete flow (two-step confirmation inside `AccountDetail`) -/

/-- The slice of the `AccountDetail` view state driving the delete
flow: the `showDelete` cell plus whether the component is still mounted
(a successful `handleDelete` navigates to the list view, unmounting the
detail view and removing all its buttons). -/
structure DeleteFlow where
  showDelete : Bool
  mounted : Bool

/-- One user click in the delete flow. -/
inductive DeleteAction where
  | request : DeleteAction
  | confirm : DeleteAction
  | cancel : DeleteAction
deriving DecidableEq

/-- One user click processed by the rendered buttons: the "Delete
Account" button (rendered only while `!showDelete`) sets `showDelete`;
"Confirm Delete" (rendered only while `showDelete`) runs
`handleDelete`; "Cancel" clears `showDelete`. A click on a button that
is not rendered — including any click after navigation away — is
impossible and leaves everything unchanged. -/
def deleteStep (account : Option Account) (s : DeleteFlow)
    (act : DeleteAction) (remErr : Option Thrown) : DeleteFlow × List StoreOp :=
  if !s.mounted then (s, [])
  else
    match act with
    | .request => if s.showDelete then (s, []) else ({ s with showDelete := true }, [])
    | .cancel => if s.showDelete then ({ s with showDelete := false }, []) else (s, [])
    | .confirm =>
      if s.showDelete then
        let r := handleDelete account remErr
        ({ s with mounted := !r.2 }, r.1)
      else (s, [])

/-- A sequence of delete-flow clicks, each paired with the store's
response to the removal it may trigger. -/
def deleteRun (account : Option Account) (s : DeleteFlow) :
    List (DeleteAction × Option Thrown) → DeleteFlow × List StoreOp
  | [] => (s, [])
  | (act, remErr) :: rest =>
    let r := deleteStep account s act remErr
    let rr := deleteRun account r.1 rest
    (rr.1, r.2 ++ rr.2)

/-- `deleteRun` over a trace in which every removal the store is asked
for resolves. -/
def deleteRunOk (account : Option Account) (s : DeleteFlow)
    (tr : List DeleteAction) : DeleteFlow × List StoreOp :=
  deleteRun account s (tr.map (fun act => (act, none)))

/-- Initial delete-flow state of a freshly rendered detail view. -/
def deleteInit : DeleteFlow := { showDelete := false, mounted := true }

/-! ### Import (`AccountList.handleImport`) -/

/-- JavaScript truthiness of the values `JSON.parse` can produce
(plus `undefined`). -/
def jsTruthy : JsValue → Bool
  | .undefined => false
  | .null => false
  | .bool b => b
  | .num n => n != 0
  | .str s => s != ""
  | .arr _ => true
  | .obj _ => true

/-- `typeof v === "string"`. -/
def jsIsString : JsValue → Bool
  | .str _ => true
  | _ => false

/-- `Array.isArray(v)`. -/
def jsIsArray : JsValue → Bool
  | .arr _ => true
  | _ => false

/-- Total property read on a value that is neither null nor undefined:
an object yields the field (or `undefined` when absent); primitives and
arrays have none of the account fields, yielding `undefined`. -/
def jsFieldD (v : JsValue) (k : String) : JsValue :=
  match v with
  | .obj fields => (fields.lookup k).getD .undefined
  | _ => .undefined

/-- Property read `v.k` as the runtime performs it: reading off `null`
or `undefined` throws a `TypeError`; otherwise `jsFieldD`. -/
def getField (v : JsValue) (k : String) : Except Thrown JsValue :=
  match v with
  | .undefined => .error (.typeErrorRead k)
  | .null => .error (.typeErrorRead k)
  | v => .ok (jsFieldD v k)

/-- `x ?? y`. -/
def jsCoalesce (x y : JsValue) : JsValue :=
  match x with
  | .undefined => y
  | .null => y
  | v => v

/-- The underlying string of a value the `typeof` check certified to be
a string (all other branches are unreachable after validation). -/
def jsAsString : JsValue → String
  | .str s => s
  | _ => ""

/-- The normalized record `handleImport` builds and hands to
`addAccount`. `email`, `password` and `deviceIdentifier` are certified
strings by the preceding validation; the other fields carry whatever
runtime value the input supplied (or the coalesced default). -/
structure ImportedAccount where
  email : String
  password : String
  appleId : JsValue
  store : JsValue
  firstName : JsValue
  lastName : JsValue
  passwordToken : JsValue
  directoryServicesIdentifier : JsValue
  cookies : List JsValue
  deviceIdentifier : String
  pod : JsValue

/-- `text.trim()`: strips leading and trailing whitespace (JS also
trims some exotic Unicode space characters; the model covers the
common ASCII whitespace). -/
def jsTrim (s : String) : String :=
  ⟨((s.data.dropWhile Char.isWhitespace).reverse.dropWhile Char.isWhitespace).reverse⟩

/-- The banner cells of the `AccountList` component. -/
structure ListState where
  error : Option String
  success : Option String

/-- Outcome of the `try` block of `handleImport` up to (but excluding)
the `addAccount` call: either an early `return` after `setError`, or a
validated record about to be added. -/
inductive ImportFlowResult where
  | earlyError (message : String) : ImportFlowResult
  | validated (a : ImportedAccount) : ImportFlowResult

/-- The `catch` block of `handleImport`. -/
def importCatch (e : Thrown) : String :=
  match e with
  | .parseError _ => "Invalid JSON in clipboard."
  | e => (thrownMessage e).getD "Failed to import account"

/-- The `try` block of `handleImport` up to the `addAccount` call:
blank-clipboard check, `JSON.parse` (whose outcome is the `parsed`
input), the three required-field checks in source order (each property
read can throw, e.g. on a parsed `null`), then the normalized record.
After the email check passed, `data` is necessarily an object, so the
optional-field reads cannot throw and are the total `jsFieldD`. -/
def importTry (text : String) (parsed : Except String JsValue) :
    Except Thrown ImportFlowResult :=
  if jsTrim text = "" then .ok (.earlyError "Clipboard is empty.")
  else
    match parsed with
    | .error m => .error (.parseError m)
    | .ok data =>
      match getField data "email" with
      | .error e => .error e
      | .ok email =>
        if !(jsTruthy email) || !(jsIsString email) then
          .ok (.earlyError "Invalid account data: missing or invalid email.")
        else
          match getField data "password" with
          | .error e => .error e
          | .ok password =>
            if !(jsTruthy password) || !(jsIsString password) then
              .ok (.earlyError "Invalid account data: missing or invalid password.")
            else
              match getField data "deviceIdentifier" with
              | .error e => .error e
              | .ok deviceIdentifier =>
                if !(jsTruthy deviceIdentifier) || !(jsIsString deviceIdentifier) then
                  .ok (.earlyError "Invalid account data: missing or invalid device identifier.")
                else
                  .ok (.validated {
                    email := jsAsString email,
                    password := jsAsString password,
                    appleId := jsCoalesce (jsFieldD data "appleId") email,
                    store := jsCoalesce (jsFieldD data "store") (.str ""),
                    firstName := jsCoalesce (jsFieldD data "firstName") (.str ""),
                    lastName := jsCoalesce (jsFieldD data "lastName") (.str ""),
                    passwordToken := jsCoalesce (jsFieldD data "passwordToken") (.str ""),
                    directoryServicesIdentifier :=
                      jsCoalesce (jsFieldD data "directoryServicesIdentifier") (.str ""),
                    cookies :=
                      match jsFieldD data "cookies" with
                      | .arr l => l
                      | _ => [],
                    deviceIdentifier := jsAsString deviceIdentifier,
                    pod := jsFieldD data "pod" })

/-- `handleImport`: banners are cleared on entry; the `try` block runs;
a validated record is passed to `addAccount` (whose rejection, if any,
is the `addErr` input) and on resolution the success banner is set and
navigation happens; every thrown value lands in the `catch` block.
Returns the final banner state and the records passed to
`addAccount`. -/
def handleImport (text : String) (parsed : Except String JsValue)
    (addErr : Option Thrown) : ListState × List ImportedAccount :=
  match importTry text parsed with
  | .error e => ({ error := some (importCatch e), success := none }, [])
  | .ok (.earlyError m) => ({ error := some m, success := none }, [])
  | .ok (.validated a) =>
    match addErr with
    | some e => ({ error := some (importCatch e), success := none }, [a])
    | none =>
      ({ error := none,
         success := some ("Account \"" ++ a.email ++ "\" imported successfully.") },
       [a])

/-- The JSON value `JSON.parse(JSON.stringify(a, null, 2))` denotes for
an account record: all fields serialized in declaration order, except
that `stringify` omits `pod` when it is `undefined`. -/
def accountToJs (a : Account) : JsValue :=
  .obj ([("email", .str a.email), ("password", .str a.password),
         ("appleId", .str a.appleId), ("store", .str a.store),
         ("firstName", .str a.firstName), ("lastName", .str a.lastName),
         ("passwordToken", .str a.passwordToken),
         ("directoryServicesIdentifier", .str a.directoryServicesIdentifier),
         ("cookies", .arr a.cookies),
         ("deviceIdentifier", .str a.deviceIdentifier)] ++
        (match a.pod with
         | some p => [("pod", .str p)]
         | none => []))

/-! ### 2FA code input (`AccountDetail` render) -/

/-- `maxLength={6}` on the code input: the platform truncates user
input at 6 characters. -/
def codeInputMaxLength : Nat := 6

/-- `pattern="[0-9]*"` on the code input: participates only in form
constraint validation; it does not filter what can be typed or pasted
into a `type="text"` input. -/
def codeInputPattern : String := "[0-9]*"

/-- The code input's change handler stores the element value verbatim:
`onChange={(e) => setReauthCode(e.target.value)}`. -/
def reauthCodeOnChange (targetValue : String) : String := targetValue

/-- `disabled={reauthing || !reauthCode}` on the Verify button. -/
def verifyDisabled (reauthing : Bool) (reauthCode : String) : Bool :=
  reauthing || reauthCode == ""

/-- A numeric string: digits only. -/
def isNumericString (s : String) : Bool :=
  s.toList.all (fun c => c.isDigit)

/-- Whether the input object's `cookies` field would be replaced by the
empty array: true when the field is absent or present with a non-array
value (`Array.isArray(data.cookies)` is false). -/
def cookiesNotArray (fields : List (String × JsValue)) : Bool :=
  match fields.lookup "cookies" with
  | some v => !(jsIsArray v)
  | none => true

/-- Concrete account record used to instantiate theorems. -/
def wAccount : Account :=
  { email := "user@example.com", password := "pw", appleId := "user@example.com",
    store := "143441", firstName := "A", lastName := "B", passwordToken := "",
    directoryServicesIdentifier := "1", cookies := [], deviceIdentifier := "D1",
    pod := none }

/-- Concrete detail-view state in the Idle phase (no code prompt). -/
def wIdle : DetailState :=
  { showDelete := false, reauthing := false, exporting := false,
    reauthCode := "", needsCode := false, error := none, success := none }

/-- Concrete detail-view state in the AwaitingCode phase: the code
prompt is shown and a code has been typed. -/
def wAwaitingCode : DetailState :=
  { showDelete := false, reauthing := false, exporting := false,
    reauthCode := "123456", needsCode := true, error := none, success := none }

/-! ## Helper lemmas -/

/-- Property access does not throw on a value that is neither null nor
undefined. -/
theorem getField_not_nullish (v : JsValue) (k : String)
    (h1 : v ≠ .null) (h2 : v ≠ .undefined) : getField v k = .ok (jsFieldD v k) := by
  cases v <;> first | rfl | simp_all

/-- After navigation away the detail view is unmounted: no delete-flow
click can do anything. -/
theorem deleteRun_unmounted (account : Option Account) (s : DeleteFlow)
    (h : s.mounted = false) (tr : List (DeleteAction × Option Thrown)) :
    deleteRun account s tr = (s, []) := by
  induction tr with
  | nil => rfl
  | cons hd tl ih =>
    obtain ⟨act, remErr⟩ := hd
    simp [deleteRun, deleteStep, h, ih]

/-- Unfolding `deleteRunOk` on the empty trace. -/
theorem deleteRunOk_nil (account : Option Account) (s : DeleteFlow) :
    deleteRunOk account s [] = (s, []) := rfl

/-- Unfolding `deleteRunOk` on a cons trace. -/
theorem deleteRunOk_cons (account : Option Account) (s : DeleteFlow)
    (act : DeleteAction) (tr : List DeleteAction) :
    deleteRunOk account s (act :: tr) =
      ((deleteRunOk account (deleteStep account s act none).1 tr).1,
       (deleteStep account s act none).2 ++
         (deleteRunOk account (deleteStep account s act none).1 tr).2) := rfl

/-- A delete request issues no store call and does not unmount. -/
theorem deleteStep_request (account : Option Account) (s : DeleteFlow)
    (remErr : Option Thrown) :
    (deleteStep account s .request remErr).2 = [] ∧
    (deleteStep account s .request remErr).1.mounted = s.mounted := by
  cases hm : s.mounted <;> cases hsd : s.showDelete <;> simp [deleteStep, hm, hsd]

/-- A cancel click issues no store call, does not unmount, and is a
no-op when no confirmation is pending. -/
theorem deleteStep_cancel (account : Option Account) (s : DeleteFlow)
    (remErr : Option Thrown) :
    (deleteStep account s .cancel remErr).2 = [] ∧
    (deleteStep account s .cancel remErr).1.mounted = s.mounted ∧
    (s.showDelete = false → (deleteStep account s .cancel remErr).1 = s) := by
  cases hm : s.mounted <;> cases hsd : s.showDelete <;> simp [deleteStep, hm, hsd]

/-- A confirm click while no confirmation is pending is a no-op (the
Confirm button is not rendered). -/
theorem deleteStep_confirm_hidden (account : Option Account) (s : DeleteFlow)
    (remErr : Option Thrown) (hsd : s.showDelete = false) :
    deleteStep account s .confirm remErr = (s, []) := by
  cases hm : s.mounted <;> simp [deleteStep, hm, hsd]

/-- Over any trace in which the store resolves removals, the flow
issues either no store call or exactly the single removal of the
viewed account. -/
theorem deleteRunOk_ops (a : Account) (s : DeleteFlow) (tr : List DeleteAction) :
    (deleteRunOk (some a) s tr).2 = [] ∨
    (deleteRunOk (some a) s tr).2 = [StoreOp.remove a.email] := by
  induction tr generalizing s with
  | nil => exact Or.inl rfl
  | cons act tl ih =>
    rw [deleteRunOk_cons]
    by_cases hm : s.mounted = true
    · cases act with
      | request =>
        have h := deleteStep_request (some a) s none
        rcases ih (deleteStep (some a) s .request none).1 with h2 | h2 <;>
          simp [deleteRunOk] at h2 ⊢ <;> simp [h.1, h2]
      | cancel =>
        have h := deleteStep_cancel (some a) s none
        rcases ih (deleteStep (some a) s .cancel none).1 with h2 | h2 <;>
          simp [deleteRunOk] at h2 ⊢ <;> simp [h.1, h2]
      | confirm =>
        by_cases hsd : s.showDelete = true
        · have hstep : deleteStep (some a) s .confirm none =
              ({ s with mounted := false }, [StoreOp.remove a.email]) := by
            simp [deleteStep, hm, hsd, handleDelete]
          rw [hstep]
          have hrest := deleteRun_unmounted (some a) { s with mounted := false } rfl
            (tl.map (fun act => (act, none)))
          simp [deleteRunOk, hrest]
        · have hsd' : s.showDelete = false := by simpa using hsd
          rw [deleteStep_confirm_hidden (some a) s none hsd']
          rcases ih s with h2 | h2 <;> simp [deleteRunOk] at h2 ⊢ <;> simp [h2]
    · have hm' : s.mounted = false := by simpa using hm
      have hstep : deleteStep (some a) s act none = (s, []) := by
        simp [deleteStep, hm']
      rw [hstep]
      rcases ih s with h2 | h2 <;> simp [deleteRunOk] at h2 ⊢ <;> simp [h2]

/-- Without a confirm click no store call is ever issued. -/
theorem deleteRunOk_no_confirm (a : Account) (s : DeleteFlow) (tr : List DeleteAction)
    (h : DeleteAction.confirm ∉ tr) : (deleteRunOk (some a) s tr).2 = [] := by
  induction tr generalizing s with
  | nil => rfl
  | cons act tl ih =>
    have hact : act ≠ DeleteAction.confirm := fun hc => h (hc ▸ List.mem_cons_self act tl)
    have htl : DeleteAction.confirm ∉ tl := fun hc => h (List.mem_cons_of_mem act hc)
    rw [deleteRunOk_cons]
    cases act with
    | request => simp [(deleteStep_request (some a) s none).1, ih _ htl]
    | cancel => simp [(deleteStep_cancel (some a) s none).1, ih _ htl]
    | confirm => exact absurd rfl hact

/-- Without a delete request, started outside ConfirmPending, no store
call is ever issued. -/
theorem deleteRunOk_no_request (a : Account) (s : DeleteFlow) (tr : List DeleteAction)
    (hsd : s.showDelete = false) (h : DeleteAction.request ∉ tr) :
    (deleteRunOk (some a) s tr).2 = [] := by
  induction tr generalizing s with
  | nil => rfl
  | cons act tl ih =>
    have htl : DeleteAction.request ∉ tl := fun hc => h (List.mem_cons_of_mem act hc)
    rw [deleteRunOk_cons]
    cases act with
    | request => exact absurd (List.mem_cons_self _ _) h
    | cancel =>
      rw [(deleteStep_cancel (some a) s none).2.2 hsd]
      simp [(deleteStep_cancel (some a) s none).1, ih s hsd htl]
    | confirm =>
      rw [deleteStep_confirm_hidden (some a) s none hsd]
      simp [ih s hsd htl]

/-- Any issued removal is preceded by a delete request that is itself
followed by a confirm click. -/
theorem deleteRunOk_order (a : Account) (s : DeleteFlow) (tr : List DeleteAction)
    (hsd : s.showDelete = false) (hne : (deleteRunOk (some a) s tr).2 ≠ []) :
    ∃ t1 t2, tr = t1 ++ DeleteAction.request :: t2 ∧ DeleteAction.confirm ∈ t2 := by
  induction tr generalizing s with
  | nil => exact absurd rfl hne
  | cons act tl ih =>
    rw [deleteRunOk_cons] at hne
    cases act with
    | request =>
      refine ⟨[], tl, rfl, ?_⟩
      by_contra hc
      have hops := deleteRunOk_no_confirm a (deleteStep (some a) s .request none).1 tl hc
      simp [(deleteStep_request (some a) s none).1, hops] at hne
    | cancel =>
      have hstep : deleteStep (some a) s .cancel none = (s, []) := by
        cases hm : s.mounted <;> simp [deleteStep, hm, hsd]
      simp only [hstep, List.nil_append] at hne
      obtain ⟨t1, t2, heq, hmem⟩ := ih s hsd hne
      exact ⟨DeleteAction.cancel :: t1, t2, by rw [heq]; rfl, hmem⟩
    | confirm =>
      simp only [deleteStep_confirm_hidden (some a) s none hsd, List.nil_append] at hne
      obtain ⟨t1, t2, heq, hmem⟩ := ih s hsd hne
      exact ⟨DeleteAction.confirm :: t1, t2, by rw [heq]; rfl, hmem⟩

/-! ## Claim theorems -/

/-- Counterexample to claim C1. The claim says every re-authentication
failure not flagged code-required ends in Idle with no code-prompt,
even for attempts made from the AwaitingCode state. At the concrete
AwaitingCode state `wAwaitingCode` and a plain (non-code-required)
error, the handler leaves `needsCode` true — the code prompt stays
displayed — while it does show the error and issues no store call, so
the claim as stated is false. -/
theorem reauth_other_failure_keeps_prompt_cex :
  codeRequiredFlag (.jsError "Network request failed") = false ∧
  (handleReauth (some wAccount) wAwaitingCode
      (.error (.jsError "Network request failed")) none).1.needsCode = true ∧
  (handleReauth (some wAccount) wAwaitingCode
      (.error (.jsError "Network request failed")) none).2 = [] :=
  ⟨rfl, rfl, rfl⟩

/-- Claim C1, amended. For every re-authentication attempt that fails
with an error not flagged code-required, the failure message is shown
as an error, the success banner is cleared, the in-flight flag ends
false, and no account-store mutation occurs; but the code-prompt state
(`needsCode`) and the typed code are left unchanged rather than reset,
so an attempt made from Idle ends in Idle while an attempt made from
AwaitingCode leaves the prompt shown. -/
theorem reauth_other_failure_amended (a : Account) (st : DetailState) (e : Thrown)
    (updErr : Option Thrown) (h : codeRequiredFlag e = false) :
  handleReauth (some a) st (.error e) updErr =
    ({ st with error := some ((thrownMessage e).getD "Re-authentication failed"),
               success := none, reauthing := false }, []) := by
  cases e with
  | authError cr m =>
    cases cr with
    | false => rfl
    | true => simp [codeRequiredFlag] at h
  | parseError m => rfl
  | typeErrorRead k => rfl
  | jsError m => rfl
  | nonError => rfl

/-- Witness for the amended claim C1 at a concrete input: an Idle-state
attempt failing with a plain error ends Idle with the message shown and
no store call. -/
theorem reauth_other_failure_amended_witness :
  codeRequiredFlag (.jsError "boom") = false ∧
  handleReauth (some wAccount) wIdle (.error (.jsError "boom")) none =
    ({ wIdle with error := some "boom", success := none, reauthing := false }, []) :=
  ⟨rfl, reauth_other_failure_amended wAccount wIdle (.jsError "boom") none rfl⟩

/-- Claim C2. For every re-authentication attempt in which the
authenticator resolves successfully (and the awaited store update
resolves), the one record passed to the store's update operation is
exactly the record the authenticator returned, the pending-code state
(`needsCode` flag and `reauthCode` field) is cleared, and the success
message is surfaced. -/
theorem reauth_success_updates_store (a updated : Account) (st : DetailState) :
  handleReauth (some a) st (.ok updated) none =
    ({ st with error := none, success := some "Account re-authenticated successfully.",
               reauthing := false, needsCode := false, reauthCode := "" },
     [StoreOp.update updated]) := rfl

/-- Claim C3. For every re-authentication attempt failing with an
error flagged code-required, the flow transitions to AwaitingCode
(`needsCode` becomes true), the failure's message is surfaced, the
previously entered code field is left unchanged (the result keeps
`st.reauthCode`), and no store call is issued. -/
theorem reauth_code_required_transition (a : Account) (st : DetailState) (m : String)
    (updErr : Option Thrown) :
  handleReauth (some a) st (.error (.authError true m)) updErr =
    ({ st with error := some m, success := none, reauthing := false, needsCode := true },
     []) := rfl

/-- Counterexample to claim C4. The claim quantifies over every
clipboard text, requiring the email check to report the missing-email
error whenever `email` is not a non-empty string. The text `"null"` is
non-blank and is valid JSON, and its parsed value has no non-empty
string `email`; yet the reported error is the platform TypeError
message from the property read on `null`, not the email-specific
error. -/
theorem import_null_not_email_error_cex :
  jsTrim "null" ≠ "" ∧
  handleImport "null" (.ok .null) none =
    ({ error := some (nullReadMessage "email"), success := none }, []) ∧
  nullReadMessage "email" ≠ "Invalid account data: missing or invalid email." :=
  ⟨by decide, rfl, by decide⟩

/-- Claim C4, amended. Import checks failure modes in order —
blank/whitespace-only clipboard first, then syntactically invalid JSON
(yielding exactly the invalid-JSON error), then, for any parsed value
other than `null` (on `null` the property read throws a TypeError
instead; `JSON.parse` never yields `undefined`), the email, password
and deviceIdentifier checks in that order, each requiring a non-empty
string, first failure winning with its specific error — and every such
failure returns before any store add call is issued (the result's
operation list is empty). -/
theorem import_check_order_amended (text : String) (sm : String) (data : JsValue)
    (addErr : Option Thrown) :
  (jsTrim text = "" →
    ∀ parsed, handleImport text parsed addErr =
      ({ error := some "Clipboard is empty.", success := none }, [])) ∧
  (jsTrim text ≠ "" →
    handleImport text (.error sm) addErr =
      ({ error := some "Invalid JSON in clipboard.", success := none }, [])) ∧
  (jsTrim text ≠ "" → data ≠ .null → data ≠ .undefined →
    (!(jsTruthy (jsFieldD data "email")) || !(jsIsString (jsFieldD data "email"))) = true →
    handleImport text (.ok data) addErr =
      ({ error := some "Invalid account data: missing or invalid email.", success := none },
       [])) ∧
  (jsTrim text ≠ "" → data ≠ .null → data ≠ .undefined →
    (!(jsTruthy (jsFieldD data "email")) || !(jsIsString (jsFieldD data "email"))) = false →
    (!(jsTruthy (jsFieldD data "password")) || !(jsIsString (jsFieldD data "password"))) = true →
    handleImport text (.ok data) addErr =
      ({ error := some "Invalid account data: missing or invalid password.", success := none },
       [])) ∧
  (jsTrim text ≠ "" → data ≠ .null → data ≠ .undefined →
    (!(jsTruthy (jsFieldD data "email")) || !(jsIsString (jsFieldD data "email"))) = false →
    (!(jsTruthy (jsFieldD data "password")) || !(jsIsString (jsFieldD data "password"))) = false →
    (!(jsTruthy (jsFieldD data "deviceIdentifier"))
       || !(jsIsString (jsFieldD data "deviceIdentifier"))) = true →
    handleImport text (.ok data) addErr =
      ({ error := some "Invalid account data: missing or invalid device identifier.",
         success := none }, [])) := by
  refine ⟨?_, ?_, ?_, ?_, ?_⟩
  · intro ht parsed
    simp [handleImport, importTry, ht]
  · intro ht
    simp [handleImport, importTry, ht, importCatch]
  · intro ht hn hu hc
    simp [handleImport, importTry, ht, getField_not_nullish data _ hn hu, hc]
  · intro ht hn hu he hc
    simp [handleImport, importTry, ht, getField_not_nullish data _ hn hu, he, hc]
  · intro ht hn hu he hp hc
    simp [handleImport, importTry, ht, getField_not_nullish data _ hn hu, he, hp, hc]

/-- Witness for the amended claim C4: invalid JSON yields exactly the
invalid-JSON error, and the empty JSON object fails with the
missing-email error, both with no store add issued. -/
theorem import_check_order_witness :
  handleImport "not json" (.error "Unexpected token") none =
    ({ error := some "Invalid JSON in clipboard.", success := none }, []) ∧
  handleImport "\x7b\x7d" (.ok (.obj [])) none =
    ({ error := some "Invalid account data: missing or invalid email.", success := none },
     []) :=
  ⟨(import_check_order_amended "not json" "Unexpected token" JsValue.null none).2.1
     (by decide),
   (import_check_order_amended "\x7b\x7d" "" (.obj []) none).2.2.1 (by decide)
     (fun h => JsValue.noConfusion h) (fun h => JsValue.noConfusion h) rfl⟩

/-- Claim C5. For every clipboard JSON object whose `email`,
`password` and `deviceIdentifier` are non-empty strings, import
succeeds (with the store add resolving) and hands the store a
normalized record: an absent `appleId` defaults to the email; absent
`store`, `firstName`, `lastName`, `passwordToken` and
`directoryServicesIdentifier` default to the empty string; `cookies`
defaults to the empty sequence whenever the input's `cookies` is not
an array; an absent `pod` is left unset (`undefined`); and no absent
or unknown optional field aborts the import (the object may contain
arbitrary further fields). -/
theorem import_defaults_normalization (text : String) (fields : List (String × JsValue))
    (e p d : String)
    (htext : jsTrim text ≠ "")
    (he : fields.lookup "email" = some (.str e)) (hene : e ≠ "")
    (hp : fields.lookup "password" = some (.str p)) (hpne : p ≠ "")
    (hd : fields.lookup "deviceIdentifier" = some (.str d)) (hdne : d ≠ "")
    (hA : fields.lookup "appleId" = none)
    (hS : fields.lookup "store" = none)
    (hF : fields.lookup "firstName" = none)
    (hL : fields.lookup "lastName" = none)
    (hT : fields.lookup "passwordToken" = none)
    (hD : fields.lookup "directoryServicesIdentifier" = none)
    (hC : cookiesNotArray fields = true)
    (hP : fields.lookup "pod" = none) :
  handleImport text (.ok (.obj fields)) none =
    ({ error := none,
       success := some ("Account \"" ++ e ++ "\" imported successfully.") },
     [{ email := e, password := p, appleId := .str e, store := .str "",
        firstName := .str "", lastName := .str "", passwordToken := .str "",
        directoryServicesIdentifier := .str "", cookies := [],
        deviceIdentifier := d, pod := .undefined }]) := by
  cases hcv : fields.lookup "cookies" with
  | none =>
    simp [handleImport, importTry, htext, getField, jsFieldD, jsTruthy, jsIsString,
      jsAsString, jsCoalesce, he, hp, hd, hene, hpne, hdne, hA, hS, hF, hL, hT, hD, hP, hcv]
  | some v =>
    have hv : (!(jsIsArray v)) = true := by
      unfold cookiesNotArray at hC
      rw [hcv] at hC
      exact hC
    cases v
    case arr => simp [jsIsArray] at hv
    all_goals
      simp [handleImport, importTry, htext, getField, jsFieldD, jsTruthy, jsIsString,
        jsAsString, jsCoalesce, he, hp, hd, hene, hpne, hdne, hA, hS, hF, hL, hT, hD,
        hP, hcv]

/-- Witness for claim C5: the spec's own example input, a JSON object
with only the three required fields, imports into a record with
`appleId` equal to the email, empty cookies, all other optional strings
empty, and `pod` unset. -/
theorem import_defaults_normalization_witness :
  handleImport "\x7b\"email\":\"a@b.com\",\"password\":\"x\",\"deviceIdentifier\":\"D1\"\x7d"
      (.ok (.obj [("email", .str "a@b.com"), ("password", .str "x"),
                  ("deviceIdentifier", .str "D1")])) none =
    ({ error := none, success := some "Account \"a@b.com\" imported successfully." },
     [{ email := "a@b.com", password := "x", appleId := .str "a@b.com", store := .str "",
        firstName := .str "", lastName := .str "", passwordToken := .str "",
        directoryServicesIdentifier := .str "", cookies := [],
        deviceIdentifier := "D1", pod := .undefined }]) :=
  import_defaults_normalization _ _ "a@b.com" "x" "D1" (by decide) rfl (by decide)
    rfl (by decide) rfl (by decide) rfl rfl rfl rfl rfl rfl rfl rfl

/-- Claim C6. For every account record with non-empty `email`,
`password` and `deviceIdentifier`, exporting it (the JSON value the
2-space-indented serialization denotes, with an `undefined` `pod`
omitted by `stringify`) and running the import normalization on that
text yields a record whose required fields equal the original's
exactly; the optional fields present in the export are carried over,
and `pod`, the one optional field that can be absent from the exported
text, is filled with its documented default (left unset) exactly when
it was absent. -/
theorem export_import_roundtrip (a : Account) (text : String)
    (htext : jsTrim text ≠ "")
    (he : a.email ≠ "") (hp : a.password ≠ "") (hd : a.deviceIdentifier ≠ "") :
  handleImport text (.ok (accountToJs a)) none =
    ({ error := none,
       success := some ("Account \"" ++ a.email ++ "\" imported successfully.") },
     [{ email := a.email, password := a.password, appleId := .str a.appleId,
        store := .str a.store, firstName := .str a.firstName, lastName := .str a.lastName,
        passwordToken := .str a.passwordToken,
        directoryServicesIdentifier := .str a.directoryServicesIdentifier,
        cookies := a.cookies, deviceIdentifier := a.deviceIdentifier,
        pod := match a.pod with | some p => .str p | none => .undefined }]) := by
  cases hpod : a.pod <;>
    simp [handleImport, importTry, htext, getField, jsFieldD, accountToJs, List.lookup,
      jsTruthy, jsIsString, jsAsString, jsCoalesce, he, hp, hd, hpod]

/-- Witness for claim C6 at the concrete record `wAccount`: the
round-trip preserves the required fields and leaves the absent `pod`
unset. -/
theorem export_import_roundtrip_witness :
  handleImport "exported-json" (.ok (accountToJs wAccount)) none =
    ({ error := none,
       success := some "Account \"user@example.com\" imported successfully." },
     [{ email := "user@example.com", password := "pw", appleId := .str "user@example.com",
        store := .str "143441", firstName := .str "A", lastName := .str "B",
        passwordToken := .str "", directoryServicesIdentifier := .str "1", cookies := [],
        deviceIdentifier := "D1", pod := .undefined }]) :=
  export_import_roundtrip wAccount "exported-json" (by decide) (by decide) (by decide)
    (by decide)

/-- Claim C7. In every sequence of delete-flow user actions (with the
store resolving removals), the store's remove operation is called at
most once; any issued removal removes exactly the viewed account and
happens only from the ConfirmPending state reached by an explicit
delete request followed by an explicit confirm (a trace with no
confirm, or no request, issues no removal, and a nonempty operation
list forces a request followed later by a confirm); and cancel from
ConfirmPending returns to Normal with the store untouched. -/
theorem delete_flow_remove_once (a : Account) (tr : List DeleteAction) :
  (deleteRunOk (some a) deleteInit tr).2.length ≤ 1 ∧
  ((deleteRunOk (some a) deleteInit tr).2 ≠ [] →
    (deleteRunOk (some a) deleteInit tr).2 = [StoreOp.remove a.email]) ∧
  (DeleteAction.confirm ∉ tr → (deleteRunOk (some a) deleteInit tr).2 = []) ∧
  (DeleteAction.request ∉ tr → (deleteRunOk (some a) deleteInit tr).2 = []) ∧
  ((deleteRunOk (some a) deleteInit tr).2 ≠ [] →
    ∃ t1 t2, tr = t1 ++ DeleteAction.request :: t2 ∧ DeleteAction.confirm ∈ t2) ∧
  deleteStep (some a) { showDelete := true, mounted := true } .cancel none =
    ({ showDelete := false, mounted := true }, []) := by
  refine ⟨?_, ?_, ?_, ?_, ?_, rfl⟩
  · rcases deleteRunOk_ops a deleteInit tr with h | h <;> simp [h]
  · intro hne
    rcases deleteRunOk_ops a deleteInit tr with h | h
    · exact absurd h hne
    · exact h
  · exact deleteRunOk_no_confirm a deleteInit tr
  · exact deleteRunOk_no_request a deleteInit tr rfl
  · exact deleteRunOk_order a deleteInit tr rfl

/-- Witness for claim C7: a request followed by cancel issues no store
call, while a request followed by confirm issues exactly the one
removal of the viewed account. -/
theorem delete_flow_remove_once_witness :
  (deleteRunOk (some wAccount) deleteInit [DeleteAction.request, DeleteAction.cancel]).2
      = [] ∧
  (deleteRunOk (some wAccount) deleteInit [DeleteAction.request, DeleteAction.confirm]).2
      = [StoreOp.remove "user@example.com"] :=
  ⟨(delete_flow_remove_once wAccount [DeleteAction.request, DeleteAction.cancel]).2.2.1
     (by decide),
   (delete_flow_remove_once wAccount [DeleteAction.request, DeleteAction.confirm]).2.1
     (fun h => List.noConfusion h)⟩

/-- Counterexample to claim C8. The claim says the 2FA code field only
ever holds numeric strings (every accepted input preserving the
invariant). The change handler stores the element value verbatim, and
for a `type="text"` input the `pattern` attribute participates only in
form constraint validation — it does not filter typed or pasted
characters — so the length-3 non-numeric value "12a" (within the
platform-enforced `maxLength` of 6) reaches the state unchanged. -/
theorem code_field_nonnumeric_cex :
  reauthCodeOnChange "12a" = "12a" ∧
  isNumericString "12a" = false ∧
  "12a".length ≤ codeInputMaxLength :=
  ⟨rfl, by decide, by decide⟩

/-- Claim C8, amended. The code field's change handler stores the
input element's value verbatim (the platform-enforced
`maxLength`, declared as 6, bounds its length, but the `pattern`
attribute does not restrict characters, so the field is not limited to
numeric strings); the verify action is disabled exactly when an
authentication call is in flight or the code field is empty; and the
success path of re-authentication resets the field to the empty
string, which respects the declared bound. -/
theorem code_field_and_verify_amended (v : String) (r : Bool) (c : String)
    (a updated : Account) (st : DetailState) :
  reauthCodeOnChange v = v ∧
  (verifyDisabled r c = true ↔ (r = true ∨ c = "")) ∧
  codeInputMaxLength = 6 ∧
  (handleReauth (some a) st (.ok updated) none).1.reauthCode = "" := by
  refine ⟨rfl, ?_, rfl, rfl⟩
  simp [verifyDisabled]

/-- Witness for the amended claim C8: with no call in flight and an
empty code field, the verify action is disabled. -/
theorem code_field_and_verify_witness :
  verifyDisabled false "" = true :=
  (code_field_and_verify_amended "x" false "" wAccount wAccount wIdle).2.1.mpr
    (Or.inr rfl)

/-- Claim C9. If the clipboard text is the valid JSON literal "null"
(parsing to the non-object value `null`), import reports neither the
invalid-JSON error nor the missing-email validation error: the
property access on the parsed value throws a TypeError whose platform
message is surfaced through the generic catch branch, and no store add
is issued. -/
theorem import_null_typeerror :
  handleImport "null" (.ok .null) none =
    ({ error := some (nullReadMessage "email"), success := none }, []) ∧
  nullReadMessage "email" ≠ "Invalid JSON in clipboard." ∧
  nullReadMessage "email" ≠ "Invalid account data: missing or invalid email." :=
  ⟨rfl, by decide, by decide⟩

/-- Claim C10. Whenever the detail view's URL email matches no account
in the store (`accounts.find` yields none), the re-authenticate,
delete and export handlers all return immediately through their
account-missing guards: the state is unchanged, no store update or
removal is issued, no clipboard write is issued, and the result does
not depend on any authenticator response (the `auth` argument is
universally quantified and never inspected). -/
theorem missing_account_guards (accounts : List Account) (decodedEmail : String)
    (st : DetailState) (auth : Except Thrown Account)
    (updErr remErr clipErr : Option Thrown) (exportData : String)
    (h : findAccount accounts decodedEmail = none) :
  handleReauth (findAccount accounts decodedEmail) st auth updErr = (st, []) ∧
  handleDelete (findAccount accounts decodedEmail) remErr = ([], false) ∧
  handleExport (findAccount accounts decodedEmail) st exportData clipErr = (st, []) := by
  rw [h]
  exact ⟨rfl, rfl, rfl⟩

/-- Witness for claim C10 at a concrete empty store and unknown
email. -/
theorem missing_account_guards_witness :
  handleReauth (findAccount [] "nobody@example.com") wIdle
      (.error Thrown.nonError) none = (wIdle, []) ∧
  handleDelete (findAccount [] "nobody@example.com") none = ([], false) ∧
  handleExport (findAccount [] "nobody@example.com") wIdle "text" none = (wIdle, []) :=
  missing_account_guards [] "nobody@example.com" wIdle (.error Thrown.nonError)
    none none none "text" rfl

end AssppWeb
